import Mathlib

/-!
Verification of the Bedrock chatbot Lambda (`bedrock-service.js`,
`helpers.js`, the Lambda entry file and `config.js`).

The JavaScript is shallowly embedded: JSON values parsed by `JSON.parse`
become the inductive `JsVal` (numbers as exact rationals — every number a
JS float can hold is a dyadic rational), JavaScript truthiness and the
`||` operator are modelled explicitly, `undefined` is modelled as
`Option.none`, and fallible code returns `Except`.  The external AWS
transport (`bedrockClient.send` plus the UTF-8 decode and `JSON.parse` of
the response body) is abstracted as a function from the serialized request
body to `Except String JsVal`; `JSON.parse` of the inbound HTTP body is
likewise abstracted as a `String → Option JsVal` parameter (`none` models
a parse exception).  Module-global `config` is passed explicitly.
-/

/-- A parsed JSON value (the codomain of `JSON.parse`).  Object field
lists represent parsed JSON objects, so keys are unique in every value the
real program manipulates. -/
inductive JsVal where
  | null : JsVal
  | bool : Bool → JsVal
  | num : Rat → JsVal
  | str : String → JsVal
  | arr : List JsVal → JsVal
  | obj : List (String × JsVal) → JsVal
deriving Repr

/-- JavaScript truthiness of a defined value.  (`Rat` has no NaN; no NaN
is produced anywhere in this program.) -/
def truthy : JsVal → Bool
  | .null => false
  | .bool b => b
  | .num q => q != 0
  | .str s => s != ""
  | .arr _ => true
  | .obj _ => true

/-- First binding of a key in an object's field list (keys are unique in
parsed JSON, so first vs. last is immaterial). -/
def lookupField : List (String × JsVal) → String → Option JsVal
  | [], _ => none
  | (k, v) :: rest, key => if k = key then some v else lookupField rest key

/-- JavaScript property read `v.key`: a field of an object, `undefined`
(i.e. `none`) on any other defined receiver.  (On `null` JavaScript would
throw a TypeError; every claim below quantifies over object receivers, and
the one place the program can reach a `null` receiver — `validateRequest` —
models the throw explicitly.) -/
def getField : JsVal → String → Option JsVal
  | .obj fs, key => lookupField fs key
  | _, _ => none

/-- Optional-chained property read `x?.key` where `x` may be `undefined`. -/
def optChainField (o : Option JsVal) (key : String) : Option JsVal :=
  match o with
  | some v => getField v key
  | none => none

/-- Optional-chained index read `x?.[i]`.  Indexing an array yields the
element, indexing a string yields a one-character string (ECMAScript),
anything else yields `undefined`. -/
def optChainIndex (o : Option JsVal) (i : Nat) : Option JsVal :=
  match o with
  | some (.arr xs) => xs.get? i
  | some (.str s) => (s.data.get? i).map (fun c => .str (String.singleton c))
  | _ => none

/-- JavaScript `a || b` where `a` may be `undefined` and `b` is defined. -/
def jsOr (a : Option JsVal) (b : JsVal) : JsVal :=
  match a with
  | some v => if truthy v then v else b
  | none => b

/-- Character-wise list prefix test. -/
def listIsPre : List Char → List Char → Bool
  | [], _ => true
  | _ :: _, [] => false
  | a :: as, b :: bs => a == b && listIsPre as bs

/-- ECMAScript `String.prototype.startsWith`, modelled character-wise
(all family prefixes in this program are ASCII, so code-unit and
character granularity agree). -/
def jsStartsWith (s p : String) : Bool := listIsPre p.data s.data

/-- `conflict p q` holds when `p` and `q` disagree at some position where
both are defined — so no string can start with both. -/
def conflict : List Char → List Char → Bool
  | a :: as, b :: bs => a != b || conflict as bs
  | _, _ => false

/-- Hexadecimal digit for `JSON.stringify`'s `\uXXXX` escapes. -/
def hexDigit (n : Nat) : Char :=
  if n < 10 then Char.ofNat (48 + n) else Char.ofNat (87 + n)

/-- Four-digit lowercase hex rendering of a code point below 0x10000. -/
def hex4 (n : Nat) : String :=
  String.mk [hexDigit (n / 4096 % 16), hexDigit (n / 256 % 16),
             hexDigit (n / 16 % 16), hexDigit (n % 16)]

/-- `JSON.stringify` escaping for one character. -/
def jsonEscapeChar (c : Char) : String :=
  if c.toNat = 34 then "\\\""
  else if c.toNat = 92 then "\\\\"
  else if c.toNat = 10 then "\\n"
  else if c.toNat = 13 then "\\r"
  else if c.toNat = 9 then "\\t"
  else if c.toNat = 8 then "\\b"
  else if c.toNat = 12 then "\\f"
  else if c.toNat < 32 then "\\u" ++ hex4 c.toNat
  else String.singleton c

/-- `JSON.stringify` escaping of a list of characters. -/
def jsonEscapeList : List Char → String
  | [] => ""
  | c :: cs => jsonEscapeChar c ++ jsonEscapeList cs

/-- `JSON.stringify` escaping of a whole string body. -/
def jsonEscape (s : String) : String :=
  jsonEscapeList s.data

/-- Multiplicity of the factor `p` in `n` (fuel-based; called with
`fuel = n`). -/
def countFactor : Nat → Nat → Nat → Nat
  | 0, _, _ => 0
  | fuel + 1, p, n =>
    if n % p = 0 && n != 0 && 2 ≤ p then countFactor fuel p (n / p) + 1 else 0

/-- Decimal rendering of a rational, matching how JavaScript prints the
numbers this program produces: every JS float is a dyadic rational, whose
decimal expansion terminates, and the reduced denominator makes the
printed form minimal (`0.7`, `0.999`, `250`).  Exponent notation for very
large or very small magnitudes is not modelled; no value in this
development reaches it.  A non-terminating rational (unreachable from JS
floats) falls back to `num/den` form. -/
def ratToJsString (q : Rat) : String :=
  let sign : String := if q.num < 0 then "-" else ""
  let n : Nat := q.num.natAbs
  let d : Nat := q.den
  if d = 1 then sign ++ toString n
  else
    let c2 := countFactor d 2 d
    let c5 := countFactor d 5 d
    if 2 ^ c2 * 5 ^ c5 = d then
      let k := max c2 c5
      let scaled := n * 10 ^ k / d
      let digits := toString scaled
      let padded :=
        if digits.length ≤ k then
          String.mk (List.replicate (k + 1 - digits.length) (Char.ofNat 48)) ++ digits
        else digits
      let intPart := String.mk (padded.data.take (padded.length - k))
      let fracPart := String.mk (padded.data.drop (padded.length - k))
      sign ++ intPart ++ "." ++ fracPart
    else sign ++ toString n ++ "/" ++ toString d

mutual
/-- `JSON.stringify` of a parsed JSON value (no `undefined` occurs inside
a parsed value, so no property is dropped). -/
def jsonStringify : JsVal → String
  | .null => "null"
  | .bool b => if b then "true" else "false"
  | .num q => ratToJsString q
  | .str s => "\"" ++ jsonEscape s ++ "\""
  | .arr xs => "[" ++ stringifyElems xs ++ "]"
  | .obj fs => "\x7b" ++ stringifyFields fs ++ "\x7d"

/-- Comma-separated serialization of array elements. -/
def stringifyElems : List JsVal → String
  | [] => ""
  | [x] => jsonStringify x
  | x :: y :: rest => jsonStringify x ++ "," ++ stringifyElems (y :: rest)

/-- Comma-separated serialization of object fields. -/
def stringifyFields : List (String × JsVal) → String
  | [] => ""
  | [(k, v)] => "\"" ++ jsonEscape k ++ "\":" ++ jsonStringify v
  | (k, v) :: y :: rest =>
    "\"" ++ jsonEscape k ++ "\":" ++ jsonStringify v ++ "," ++ stringifyFields (y :: rest)
end

/-- `config.bedrock` from `config.js`.  `agentId` and `agentAliasId` come
straight from environment variables, so each is either unset (`none`) or
some string (possibly empty); `maxTokens` is a `parseInt` result and
`temperature` a float, both exact here. -/
structure BedrockConfig where
  useAgent : Bool
  modelId : String
  maxTokens : Int
  temperature : Rat
  agentId : Option String
  agentAliasId : Option String

/-- The framing text every known dialect prepends to the user message
(inline in `preparePromptForModel`). -/
def framingText : String :=
  "You are a helpful DevOps assistant. Please respond to this question: "

/-- `preparePromptForModel(message, modelId)` from `bedrock-service.js`:
branch on the model-family prefix of `modelId`, first match wins, and
build that family's payload object from the message and the settings. -/
def preparePromptForModel (message : String) (modelId : String)
    (cfg : BedrockConfig) : JsVal :=
  if jsStartsWith modelId "anthropic.claude" then
    .obj [("prompt",
            .str ("\n\nHuman: " ++ framingText ++ message ++ "\n\nAssistant:")),
          ("max_tokens_to_sample", .num (cfg.maxTokens : Rat)),
          ("temperature", .num cfg.temperature),
          ("top_k", .num 250),
          ("top_p", .num (0.999 : Rat)),
          ("stop_sequences", .arr [.str "\n\nHuman:"])]
  else if jsStartsWith modelId "ai21" then
    .obj [("prompt", .str (framingText ++ message)),
          ("maxTokens", .num (cfg.maxTokens : Rat)),
          ("temperature", .num cfg.temperature),
          ("topP", .num (0.9 : Rat))]
  else if jsStartsWith modelId "amazon.titan" then
    .obj [("inputText", .str (framingText ++ message)),
          ("textGenerationConfig",
            .obj [("maxTokenCount", .num (cfg.maxTokens : Rat)),
                  ("temperature", .num cfg.temperature),
                  ("topP", .num (0.9 : Rat))])]
  else if jsStartsWith modelId "cohere" then
    .obj [("prompt", .str (framingText ++ message)),
          ("max_tokens", .num (cfg.maxTokens : Rat)),
          ("temperature", .num cfg.temperature),
          ("p", .num (0.9 : Rat))]
  else
    .obj [("prompt", .str message),
          ("max_tokens_to_sample", .num (cfg.maxTokens : Rat)),
          ("temperature", .num cfg.temperature)]

/-- `extractModelResponse(response, modelId)` from `bedrock-service.js`,
applied to the already-parsed response body (the UTF-8 decode and
`JSON.parse` of the raw bytes happen in the abstracted transport).
Total: a missing field at any depth flows through the optional chains and
`jsOr` to the family placeholder, never an exception. -/
def extractModelResponse (responseBody : JsVal) (modelId : String) : JsVal :=
  if jsStartsWith modelId "anthropic.claude" then
    jsOr (getField responseBody "completion") (.str "No response from Claude model")
  else if jsStartsWith modelId "ai21" then
    jsOr (optChainField (optChainField
            (optChainIndex (getField responseBody "completions") 0) "data") "text")
      (.str "No response from AI21 model")
  else if jsStartsWith modelId "amazon.titan" then
    jsOr (optChainField (optChainIndex (getField responseBody "results") 0) "outputText")
      (.str "No response from Titan model")
  else if jsStartsWith modelId "cohere" then
    jsOr (optChainField (optChainIndex (getField responseBody "generations") 0) "text")
      (.str "No response from Cohere model")
  else
    jsOr (getField responseBody "completion")
      (jsOr (getField responseBody "generation")
        (jsOr (getField responseBody "answer")
          (jsOr (getField responseBody "response")
            (.str (jsonStringify responseBody)))))

/-- The result object both invokers produce: `{message, implementationStatus?}`. -/
structure InvocationResult where
  message : JsVal
  implementationStatus : Option String
deriving Repr

/-- JavaScript falsiness of an optional environment string: unset and
empty are both falsy (`!config.bedrock.agentId`). -/
def isFalsyEnv : Option String → Bool
  | none => true
  | some s => s == ""

/-- The fixed placeholder text of the agent stub. -/
def agentPlaceholderText : String :=
  "This is a placeholder response. To implement an actual Bedrock agent, you\x27ll need to follow AWS documentation for the specific API calls."

/-- `invokeBedrockAgent(message, sessionId)` from `bedrock-service.js`.
The function performs no transport call at all (the definition takes no
transport parameter): it validates the agent configuration, throwing
`Bedrock agent configuration is incomplete` when either identifier is
falsy — rethrown by its catch block with the `Error calling Bedrock
agent:` prefix — and otherwise returns the fixed stub result.  `message`
and `sessionId` are only logged. -/
def invokeBedrockAgent (cfg : BedrockConfig) (_message _sessionId : String) :
    Except String InvocationResult :=
  if isFalsyEnv cfg.agentId || isFalsyEnv cfg.agentAliasId then
    .error "Error calling Bedrock agent: Bedrock agent configuration is incomplete"
  else
    .ok { message := .str agentPlaceholderText, implementationStatus := some "pending" }

/-- `invokeBedrockModel(message)` from `bedrock-service.js`.  `send`
abstracts `bedrockClient.send` together with the UTF-8 decode and
`JSON.parse` of the response body: it receives the serialized payload
(`JSON.stringify(prompt)`, the request `body`) and yields the parsed
response body or a failure message; any failure is caught and rethrown as
the single uniform `Error calling Bedrock model: <original message>`. -/
def invokeBedrockModel (cfg : BedrockConfig) (message : String)
    (send : String → Except String JsVal) : Except String InvocationResult :=
  match send (jsonStringify (preparePromptForModel message cfg.modelId cfg)) with
  | .error e => .error ("Error calling Bedrock model: " ++ e)
  | .ok responseBody =>
    .ok { message := extractModelResponse responseBody cfg.modelId,
          implementationStatus := none }

/-- `handleBedrockRequest(message, sessionId)`: dispatch on the
`useAgent` flag; its catch block rethrows the error unchanged. -/
def handleBedrockRequest (cfg : BedrockConfig) (message sessionId : String)
    (send : String → Except String JsVal) : Except String InvocationResult :=
  if cfg.useAgent then invokeBedrockAgent cfg message sessionId
  else invokeBedrockModel cfg message send

/-- Result shape of `validateRequest` in `helpers.js`:
`{valid: false, error}` or `{valid: true, body}`. -/
inductive ValidationOutcome where
  | invalid : String → ValidationOutcome
  | valid : JsVal → ValidationOutcome
deriving Repr

/-- JavaScript property assignment on an object's field list: update the
existing binding in place, or append a new one. -/
def setFieldList : List (String × JsVal) → String → JsVal → List (String × JsVal)
  | [], key, v => [(key, v)]
  | (k, w) :: rest, key, v =>
    if k = key then (key, v) :: rest else (k, w) :: setFieldList rest key v

/-- `body.sessionId = ...` (the valid path only reaches objects). -/
def setField : JsVal → String → JsVal → JsVal
  | .obj fs, key, v => .obj (setFieldList fs key v)
  | other, _, _ => other

/-- `validateRequest(event)` from `helpers.js`.  `parse` abstracts
`JSON.parse` (`none` models a parse exception); `genId` abstracts the
random `generateSessionId()` value.  `eventBody` is `event.body`
(`none` for absent).  Total — every exception `JSON.parse` or a property
access on `null` can raise is caught by the function's own catch block,
which returns `{valid: false, error: 'Invalid request format'}`. -/
def validateRequest (parse : String → Option JsVal) (genId : String)
    (eventBody : Option String) : ValidationOutcome :=
  match eventBody with
  | none => .invalid "Request body is required"
  | some s =>
    if s == "" then .invalid "Request body is required"
    else
      match parse s with
      | none => .invalid "Invalid request format"
      | some .null => .invalid "Invalid request format"
      | some body =>
        match getField body "message" with
        | none => .invalid "Message is required"
        | some m =>
          if truthy m then
            match getField body "sessionId" with
            | some sid =>
              if truthy sid then .valid body
              else .valid (setField body "sessionId" (.str genId))
            | none => .valid (setField body "sessionId" (.str genId))
          else .invalid "Message is required"

/-- `getCorsHeaders()` from `helpers.js`.  With no wildcard configured it
uses `allowedOrigins[0]`; configuration guarantees a non-empty list, so
the `getD` default is unreachable. -/
def getCorsHeaders (allowedOrigins : List String) : List (String × String) :=
  if allowedOrigins.contains "*" then
    [("Access-Control-Allow-Origin", "*"),
     ("Access-Control-Allow-Methods", "OPTIONS,POST,GET"),
     ("Access-Control-Allow-Headers",
      "Content-Type,X-Amz-Date,Authorization,X-Api-Key,X-Amz-Security-Token")]
  else
    [("Access-Control-Allow-Origin", allowedOrigins.head?.getD ""),
     ("Access-Control-Allow-Methods", "OPTIONS,POST,GET"),
     ("Access-Control-Allow-Headers",
      "Content-Type,X-Amz-Date,Authorization,X-Api-Key,X-Amz-Security-Token")]

/-- An API Gateway response as built by `formatResponse`. -/
structure HttpResponse where
  statusCode : Nat
  headers : List (String × String)
  body : String
deriving Repr

/-- `formatResponse(statusCode, body)` from `helpers.js`. -/
def formatResponse (allowedOrigins : List String) (statusCode : Nat)
    (body : JsVal) : HttpResponse :=
  { statusCode := statusCode,
    headers := ("Content-Type", "application/json") :: getCorsHeaders allowedOrigins,
    body := jsonStringify body }

/-- The whole resolved configuration the entry file consumes:
`config.bedrock`, `config.http.allowedOrigins`, and the
`INCLUDE_ERROR_DETAILS === 'true'` flag. -/
structure AppConfig where
  bedrock : BedrockConfig
  allowedOrigins : List String
  includeErrorDetails : Bool

mutual
/-- The String() conversion used by template literals; arrays join their
elements with commas (`null` rendering as empty), objects render as
`[object Object]`. -/
def jsToString : JsVal → String
  | .null => "null"
  | .bool b => if b then "true" else "false"
  | .num q => ratToJsString q
  | .str s => s
  | .arr xs => jsArrJoin xs
  | .obj _ => "[object Object]"

/-- `Array.prototype.toString`: comma-joined elements, `null` → empty. -/
def jsArrJoin : List JsVal → String
  | [] => ""
  | [.null] => ""
  | [x] => jsToString x
  | .null :: y :: rest => "," ++ jsArrJoin (y :: rest)
  | x :: y :: rest => jsToString x ++ "," ++ jsArrJoin (y :: rest)
end

/-- The Lambda `handler(event)` from the entry file.  The try block wraps
validation, the Bedrock call and formatting; `validateRequest` never
throws, so the catch is reached exactly when `handleBedrockRequest`
fails, and then the 500 body is
`{error: 'Internal server error', message: flag ? error.message : undefined}` —
`JSON.stringify` omits a property whose value is `undefined`, which the
conditional field list models. -/
def handler (cfg : AppConfig) (parse : String → Option JsVal) (genId : String)
    (eventBody : Option String) (send : String → Except String JsVal) :
    HttpResponse :=
  match validateRequest parse genId eventBody with
  | .invalid err =>
    formatResponse cfg.allowedOrigins 400 (.obj [("error", .str err)])
  | .valid body =>
    let message := jsToString ((getField body "message").getD .null)
    let sessionId := jsToString ((getField body "sessionId").getD .null)
    match handleBedrockRequest cfg.bedrock message sessionId send with
    | .ok result =>
      formatResponse cfg.allowedOrigins 200
        (.obj (("message", result.message) ::
          (match result.implementationStatus with
           | some st => [("implementationStatus", .str st)]
           | none => [])))
    | .error e =>
      formatResponse cfg.allowedOrigins 500
        (.obj (("error", .str "Internal server error") ::
          (if cfg.includeErrorDetails then [("message", .str e)] else [])))

/-- A default configuration value used to instantiate witnesses: the
defaults of `config.js` (claude-3-sonnet model, 1000 tokens,
temperature 0.7, no agent identifiers, wildcard CORS, no error details). -/
def cfg0 : BedrockConfig :=
  { useAgent := false,
    modelId := "anthropic.claude-3-sonnet-20240229-v1:0",
    maxTokens := 1000,
    temperature := (0.7 : Rat),
    agentId := none,
    agentAliasId := none }

/-- Truthiness of a possibly-undefined value (`!body.message`). -/
def truthyOpt : Option JsVal → Bool
  | some v => truthy v
  | none => false

/-- A synthetic well-formed Claude response: `{completion: t}`. -/
def claudeResponse (t : String) : JsVal := .obj [("completion", .str t)]

/-- A synthetic well-formed AI21 response:
`{completions: [{data: {text: t}}]}`. -/
def ai21Response (t : String) : JsVal :=
  .obj [("completions", .arr [.obj [("data", .obj [("text", .str t)])]])]

/-- A synthetic well-formed Titan response: `{results: [{outputText: t}]}`. -/
def titanResponse (t : String) : JsVal :=
  .obj [("results", .arr [.obj [("outputText", .str t)]])]

/-- A synthetic well-formed Cohere response: `{generations: [{text: t}]}`. -/
def cohereResponse (t : String) : JsVal :=
  .obj [("generations", .arr [.obj [("text", .str t)]])]

/-- A full app configuration for witnesses: defaults, direct model mode,
error details disabled. -/
def appCfg0 : AppConfig :=
  { bedrock := cfg0, allowedOrigins := ["*"], includeErrorDetails := false }

/-- No list extends two prefixes that disagree at a common position. -/
theorem listIsPre_of_conflict :
    ∀ (l p q : List Char), conflict p q = true →
      listIsPre p l = true → ¬ listIsPre q l = true
  | [], p, _, hc, hp => by
    cases p with
    | nil => simp [conflict] at hc
    | cons a as => simp [listIsPre] at hp
  | c :: cs, p, q, hc, hp => by
    cases p with
    | nil => simp [conflict] at hc
    | cons a as =>
      cases q with
      | nil => simp [conflict] at hc
      | cons b bs =>
        simp only [conflict, Bool.or_eq_true, bne_iff_ne, ne_eq] at hc
        simp only [listIsPre, Bool.and_eq_true, beq_iff_eq] at hp
        obtain ⟨hac, hpre⟩ := hp
        simp only [listIsPre, Bool.and_eq_true, beq_iff_eq]
        intro hcontra
        obtain ⟨hbc, hqre⟩ := hcontra
        rcases hc with hab | hcon
        · exact hab (hac.trans hbc.symm)
        · exact listIsPre_of_conflict cs as bs hcon hpre hqre

/-- Specialization to the string-level prefix test, in the `= false` form
the `if` conditions need. -/
theorem jsStartsWith_of_conflict {s p q : String}
    (hc : conflict p.data q.data = true) (hp : jsStartsWith s p = true) :
    jsStartsWith s q = false :=
  Bool.eq_false_iff.mpr (listIsPre_of_conflict s.data p.data q.data hc hp)

/-- C1 counterexample: the claim includes the default/unknown-model
dialect among those that wrap the user message in the framing string, but
for the unknown model `foo.bar-v1` the payload's `prompt` field is the
bare message `"hi"`, which is not the framing string followed by the
message. -/
theorem claim_C1_counterexample :
    getField (preparePromptForModel "hi" "foo.bar-v1" cfg0) "prompt" =
      some (.str "hi") ∧
    ¬ "hi" = framingText ++ "hi" :=
  ⟨rfl, by decide⟩

/-- C1 (amended): every known dialect (Claude, AI21, Titan, Cohere) wraps
the user message in the fixed framing string — Claude inside its
Human/Assistant turn, the others as the whole free-text field — while the
default/unknown-model dialect's `prompt` is the bare, unframed message. -/
theorem claim_C1_framing (msg modelId : String) (cfg : BedrockConfig) :
    (jsStartsWith modelId "anthropic.claude" = true →
      getField (preparePromptForModel msg modelId cfg) "prompt" =
        some (.str ("\n\nHuman: " ++ framingText ++ msg ++ "\n\nAssistant:"))) ∧
    (jsStartsWith modelId "ai21" = true →
      getField (preparePromptForModel msg modelId cfg) "prompt" =
        some (.str (framingText ++ msg))) ∧
    (jsStartsWith modelId "amazon.titan" = true →
      getField (preparePromptForModel msg modelId cfg) "inputText" =
        some (.str (framingText ++ msg))) ∧
    (jsStartsWith modelId "cohere" = true →
      getField (preparePromptForModel msg modelId cfg) "prompt" =
        some (.str (framingText ++ msg))) ∧
    (jsStartsWith modelId "anthropic.claude" = false →
      jsStartsWith modelId "ai21" = false →
      jsStartsWith modelId "amazon.titan" = false →
      jsStartsWith modelId "cohere" = false →
      getField (preparePromptForModel msg modelId cfg) "prompt" =
        some (.str msg)) := by
  refine ⟨?_, ?_, ?_, ?_, ?_⟩
  · intro h
    simp +decide [preparePromptForModel, h, getField, lookupField]
  · intro h
    have h1 : jsStartsWith modelId "anthropic.claude" = false :=
      jsStartsWith_of_conflict (by decide) h
    simp +decide [preparePromptForModel, h, h1, getField, lookupField]
  · intro h
    have h1 : jsStartsWith modelId "anthropic.claude" = false :=
      jsStartsWith_of_conflict (by decide) h
    have h2 : jsStartsWith modelId "ai21" = false :=
      jsStartsWith_of_conflict (by decide) h
    simp +decide [preparePromptForModel, h, h1, h2, getField, lookupField]
  · intro h
    have h1 : jsStartsWith modelId "anthropic.claude" = false :=
      jsStartsWith_of_conflict (by decide) h
    have h2 : jsStartsWith modelId "ai21" = false :=
      jsStartsWith_of_conflict (by decide) h
    have h3 : jsStartsWith modelId "amazon.titan" = false :=
      jsStartsWith_of_conflict (by decide) h
    simp +decide [preparePromptForModel, h, h1, h2, h3, getField, lookupField]
  · intro h1 h2 h3 h4
    simp [preparePromptForModel, h1, h2, h3, h4, getField, lookupField]

/-- C1 amended-claim witness at concrete inputs: a Titan model id gets the
framed `inputText`, a Claude model id gets the framed Human/Assistant
prompt. -/
theorem claim_C1_framing_witness :
    getField (preparePromptForModel "hello" "amazon.titan-text-express-v1" cfg0)
        "inputText" = some (.str (framingText ++ "hello")) ∧
    getField (preparePromptForModel "hello" "anthropic.claude-instant-v1" cfg0)
        "prompt" =
      some (.str ("\n\nHuman: " ++ framingText ++ "hello" ++ "\n\nAssistant:")) :=
  ⟨(claim_C1_framing "hello" "amazon.titan-text-express-v1" cfg0).2.2.1 (by decide),
   (claim_C1_framing "hello" "anthropic.claude-instant-v1" cfg0).1 (by decide)⟩

/-- C2 counterexample: the claim quantifies over every string `t`, but
for the empty string the Claude-family extraction of a well-formed
response `{completion: ""}` returns the placeholder, not `t` itself. -/
theorem claim_C2_counterexample :
    extractModelResponse (claudeResponse "") "anthropic.claude-v2" =
      .str "No response from Claude model" ∧
    ¬ extractModelResponse (claudeResponse "") "anthropic.claude-v2" = .str "" := by
  refine ⟨rfl, ?_⟩
  intro h
  rw [show extractModelResponse (claudeResponse "") "anthropic.claude-v2" =
        .str "No response from Claude model" from rfl] at h
  exact absurd (JsVal.str.inj h) (by decide)

/-- C2 (amended): for every known model family, every settings value and
every non-empty string `t`, building the payload with
`preparePromptForModel` succeeds with that family's payload object, and
feeding the family's synthetic well-formed response holding `t` through
`extractModelResponse` returns exactly `t`, unchanged. -/
theorem claim_C2_roundtrip (modelId msg t : String) (cfg : BedrockConfig)
    (ht : ¬ t = "") :
    (jsStartsWith modelId "anthropic.claude" = true →
      preparePromptForModel msg modelId cfg =
        preparePromptForModel msg "anthropic.claude" cfg ∧
      extractModelResponse (claudeResponse t) modelId = .str t) ∧
    (jsStartsWith modelId "ai21" = true →
      preparePromptForModel msg modelId cfg =
        preparePromptForModel msg "ai21" cfg ∧
      extractModelResponse (ai21Response t) modelId = .str t) ∧
    (jsStartsWith modelId "amazon.titan" = true →
      preparePromptForModel msg modelId cfg =
        preparePromptForModel msg "amazon.titan" cfg ∧
      extractModelResponse (titanResponse t) modelId = .str t) ∧
    (jsStartsWith modelId "cohere" = true →
      preparePromptForModel msg modelId cfg =
        preparePromptForModel msg "cohere" cfg ∧
      extractModelResponse (cohereResponse t) modelId = .str t) := by
  refine ⟨?_, ?_, ?_, ?_⟩
  · intro h
    constructor
    · simp +decide [preparePromptForModel, h]
    · simp +decide [extractModelResponse, h, claudeResponse, getField,
        lookupField, jsOr, truthy, ht]
  · intro h
    have h1 : jsStartsWith modelId "anthropic.claude" = false :=
      jsStartsWith_of_conflict (by decide) h
    constructor
    · simp +decide [preparePromptForModel, h, h1]
    · simp +decide [extractModelResponse, h, h1, ai21Response, getField,
        lookupField, optChainField, optChainIndex, jsOr, truthy, ht]
  · intro h
    have h1 : jsStartsWith modelId "anthropic.claude" = false :=
      jsStartsWith_of_conflict (by decide) h
    have h2 : jsStartsWith modelId "ai21" = false :=
      jsStartsWith_of_conflict (by decide) h
    constructor
    · simp +decide [preparePromptForModel, h, h1, h2]
    · simp +decide [extractModelResponse, h, h1, h2, titanResponse, getField,
        lookupField, optChainField, optChainIndex, jsOr, truthy, ht]
  · intro h
    have h1 : jsStartsWith modelId "anthropic.claude" = false :=
      jsStartsWith_of_conflict (by decide) h
    have h2 : jsStartsWith modelId "ai21" = false :=
      jsStartsWith_of_conflict (by decide) h
    have h3 : jsStartsWith modelId "amazon.titan" = false :=
      jsStartsWith_of_conflict (by decide) h
    constructor
    · simp +decide [preparePromptForModel, h, h1, h2, h3]
    · simp +decide [extractModelResponse, h, h1, h2, h3, cohereResponse,
        getField, lookupField, optChainField, optChainIndex, jsOr, truthy, ht]

/-- C2 amended-claim witness: the spec's Titan scenario — extraction of
`{"results":[{"outputText":"Running, Pending, Failed"}]}` returns exactly
that text. -/
theorem claim_C2_roundtrip_witness :
    extractModelResponse (titanResponse "Running, Pending, Failed")
      "amazon.titan-text-express-v1" = .str "Running, Pending, Failed" :=
  ((claim_C2_roundtrip "amazon.titan-text-express-v1"
      "List 3 Kubernetes pod states" "Running, Pending, Failed" cfg0
      (by decide)).2.2.1 (by decide)).2

/-- C3: `extractModelResponse` is a total function (it can never raise),
and for every model id of a known family and every parsed response object
in which the family's expected field chain is absent — at the top level or
at any depth along `completions[0].data.text`, `results[0].outputText` or
`generations[0].text` — it returns the family's fixed
`No response from <Family> model` placeholder. -/
theorem claim_C3_lenient (modelId : String) (body : JsVal) :
    (jsStartsWith modelId "anthropic.claude" = true →
      getField body "completion" = none →
      extractModelResponse body modelId = .str "No response from Claude model") ∧
    (jsStartsWith modelId "ai21" = true →
      optChainField (optChainField
        (optChainIndex (getField body "completions") 0) "data") "text" = none →
      extractModelResponse body modelId = .str "No response from AI21 model") ∧
    (jsStartsWith modelId "amazon.titan" = true →
      optChainField (optChainIndex (getField body "results") 0) "outputText" = none →
      extractModelResponse body modelId = .str "No response from Titan model") ∧
    (jsStartsWith modelId "cohere" = true →
      optChainField (optChainIndex (getField body "generations") 0) "text" = none →
      extractModelResponse body modelId = .str "No response from Cohere model") := by
  refine ⟨?_, ?_, ?_, ?_⟩
  · intro h hnone
    simp [extractModelResponse, h, hnone, jsOr]
  · intro h hnone
    have h1 : jsStartsWith modelId "anthropic.claude" = false :=
      jsStartsWith_of_conflict (by decide) h
    simp [extractModelResponse, h, h1, hnone, jsOr]
  · intro h hnone
    have h1 : jsStartsWith modelId "anthropic.claude" = false :=
      jsStartsWith_of_conflict (by decide) h
    have h2 : jsStartsWith modelId "ai21" = false :=
      jsStartsWith_of_conflict (by decide) h
    simp [extractModelResponse, h, h1, h2, hnone, jsOr]
  · intro h hnone
    have h1 : jsStartsWith modelId "anthropic.claude" = false :=
      jsStartsWith_of_conflict (by decide) h
    have h2 : jsStartsWith modelId "ai21" = false :=
      jsStartsWith_of_conflict (by decide) h
    have h3 : jsStartsWith modelId "amazon.titan" = false :=
      jsStartsWith_of_conflict (by decide) h
    simp [extractModelResponse, h, h1, h2, h3, hnone, jsOr]

/-- C3 witness: on the empty object every known family yields its
placeholder (for AI21 also on a nested absence, `{completions: []}`). -/
theorem claim_C3_lenient_witness :
    extractModelResponse (.obj []) "anthropic.claude-instant-v1" =
      .str "No response from Claude model" ∧
    extractModelResponse (.obj [("completions", .arr [])]) "ai21.j2-ultra-v1" =
      .str "No response from AI21 model" ∧
    extractModelResponse (.obj []) "amazon.titan-text-lite-v1" =
      .str "No response from Titan model" ∧
    extractModelResponse (.obj []) "cohere.command-text-v14" =
      .str "No response from Cohere model" :=
  ⟨(claim_C3_lenient "anthropic.claude-instant-v1" (.obj [])).1 (by decide) rfl,
   (claim_C3_lenient "ai21.j2-ultra-v1" (.obj [("completions", .arr [])])).2.1
     (by decide) rfl,
   (claim_C3_lenient "amazon.titan-text-lite-v1" (.obj [])).2.2.1 (by decide) rfl,
   (claim_C3_lenient "cohere.command-text-v14" (.obj [])).2.2.2 (by decide) rfl⟩

/-- C4: for every model id starting with a known family prefix, whatever
the suffix, payload construction and response extraction behave exactly
as for that family (equal to the canonical bare-prefix model id): the
dialect depends only on the matching prefix. -/
theorem claim_C4_dialect (modelId msg : String) (cfg : BedrockConfig)
    (body : JsVal) :
    (jsStartsWith modelId "anthropic.claude" = true →
      preparePromptForModel msg modelId cfg =
        preparePromptForModel msg "anthropic.claude" cfg ∧
      extractModelResponse body modelId =
        extractModelResponse body "anthropic.claude") ∧
    (jsStartsWith modelId "ai21" = true →
      preparePromptForModel msg modelId cfg =
        preparePromptForModel msg "ai21" cfg ∧
      extractModelResponse body modelId = extractModelResponse body "ai21") ∧
    (jsStartsWith modelId "amazon.titan" = true →
      preparePromptForModel msg modelId cfg =
        preparePromptForModel msg "amazon.titan" cfg ∧
      extractModelResponse body modelId =
        extractModelResponse body "amazon.titan") ∧
    (jsStartsWith modelId "cohere" = true →
      preparePromptForModel msg modelId cfg =
        preparePromptForModel msg "cohere" cfg ∧
      extractModelResponse body modelId = extractModelResponse body "cohere") := by
  refine ⟨?_, ?_, ?_, ?_⟩
  · intro h
    constructor
    · simp +decide [preparePromptForModel, h]
    · simp +decide [extractModelResponse, h]
  · intro h
    have h1 : jsStartsWith modelId "anthropic.claude" = false :=
      jsStartsWith_of_conflict (by decide) h
    constructor
    · simp +decide [preparePromptForModel, h, h1]
    · simp +decide [extractModelResponse, h, h1]
  · intro h
    have h1 : jsStartsWith modelId "anthropic.claude" = false :=
      jsStartsWith_of_conflict (by decide) h
    have h2 : jsStartsWith modelId "ai21" = false :=
      jsStartsWith_of_conflict (by decide) h
    constructor
    · simp +decide [preparePromptForModel, h, h1, h2]
    · simp +decide [extractModelResponse, h, h1, h2]
  · intro h
    have h1 : jsStartsWith modelId "anthropic.claude" = false :=
      jsStartsWith_of_conflict (by decide) h
    have h2 : jsStartsWith modelId "ai21" = false :=
      jsStartsWith_of_conflict (by decide) h
    have h3 : jsStartsWith modelId "amazon.titan" = false :=
      jsStartsWith_of_conflict (by decide) h
    constructor
    · simp +decide [preparePromptForModel, h, h1, h2, h3]
    · simp +decide [extractModelResponse, h, h1, h2, h3]

/-- C4 witness: the spec's two Claude model ids both behave as the Claude
family for payload construction and extraction. -/
theorem claim_C4_dialect_witness :
    preparePromptForModel "q" "anthropic.claude-3-sonnet-20240229-v1:0" cfg0 =
      preparePromptForModel "q" "anthropic.claude" cfg0 ∧
    extractModelResponse (claudeResponse "ok") "anthropic.claude-instant-v1" =
      extractModelResponse (claudeResponse "ok") "anthropic.claude" :=
  ⟨((claim_C4_dialect "anthropic.claude-3-sonnet-20240229-v1:0" "q" cfg0
      (claudeResponse "ok")).1 (by decide)).1,
   ((claim_C4_dialect "anthropic.claude-instant-v1" "q" cfg0
      (claudeResponse "ok")).1 (by decide)).2⟩

/-- C5: for the unknown model id `foo.bar-v1` and any message and
settings, the default payload carries the `max_tokens_to_sample` key (the
settings' token budget); extracting from the parsed response `{}` returns
the string `"{}"`; and the fallback chain is followed in the order
`completion`, `generation`, `answer`, `response`, then serialization. -/
theorem claim_C5_default (msg : String) (cfg : BedrockConfig) :
    getField (preparePromptForModel msg "foo.bar-v1" cfg) "max_tokens_to_sample" =
      some (.num (cfg.maxTokens : Rat)) ∧
    extractModelResponse (.obj []) "foo.bar-v1" = .str "\x7b\x7d" ∧
    extractModelResponse (.obj [("response", .str "R"), ("answer", .str "A")])
      "foo.bar-v1" = .str "A" ∧
    extractModelResponse
      (.obj [("response", .str "R"), ("generation", .str "G"), ("answer", .str "A")])
      "foo.bar-v1" = .str "G" ∧
    extractModelResponse (.obj [("generation", .str "G"), ("completion", .str "C")])
      "foo.bar-v1" = .str "C" ∧
    extractModelResponse (.obj [("response", .str "R")]) "foo.bar-v1" = .str "R" :=
  ⟨rfl, rfl, rfl, rfl, rfl, rfl⟩

/-- C6: the agent invoker fails with the configuration-incomplete error
whenever either agent identifier is absent (falsy), and with both present
returns exactly the fixed placeholder result with
`implementationStatus: 'pending'` — deterministically, on every call; the
definition takes no transport parameter, so no backend call is possible
on either path. -/
theorem claim_C6_agent (cfg : BedrockConfig) (msg sid : String) :
    ((isFalsyEnv cfg.agentId = true ∨ isFalsyEnv cfg.agentAliasId = true) →
      invokeBedrockAgent cfg msg sid =
        .error "Error calling Bedrock agent: Bedrock agent configuration is incomplete") ∧
    (isFalsyEnv cfg.agentId = false → isFalsyEnv cfg.agentAliasId = false →
      invokeBedrockAgent cfg msg sid =
        .ok { message := .str agentPlaceholderText,
              implementationStatus := some "pending" }) := by
  constructor
  · intro h
    rcases h with h | h <;> simp [invokeBedrockAgent, h]
  · intro h1 h2
    simp [invokeBedrockAgent, h1, h2]

/-- C6 witness: the spec's literal scenario (`agentId="A1"`,
`agentAliasId="AL1"`) yields the placeholder result, and the default
configuration (both unset) yields the configuration-incomplete error. -/
theorem claim_C6_agent_witness :
    invokeBedrockAgent
        { cfg0 with agentId := some "A1", agentAliasId := some "AL1" } "m" "s" =
      .ok { message := .str agentPlaceholderText,
            implementationStatus := some "pending" } ∧
    invokeBedrockAgent cfg0 "m" "s" =
      .error "Error calling Bedrock agent: Bedrock agent configuration is incomplete" :=
  ⟨(claim_C6_agent { cfg0 with agentId := some "A1", agentAliasId := some "AL1" }
      "m" "s").2 rfl rfl,
   (claim_C6_agent cfg0 "m" "s").1 (Or.inl rfl)⟩

/-- C7: every failure of the transport/decoding stage (the only fallible
stage — payload construction and extraction are total functions in this
embedding, mirroring that the source can only throw there for the inputs
this program produces) is re-raised by `invokeBedrockModel` as the single
uniform `Error calling Bedrock model: <original message>` error, and on
success the plain extracted result escapes — no transport-specific error
shape ever does. -/
theorem claim_C7_wrapping (cfg : BedrockConfig) (msg : String)
    (send : String → Except String JsVal) (e : String) (body : JsVal) :
    (send (jsonStringify (preparePromptForModel msg cfg.modelId cfg)) = .error e →
      invokeBedrockModel cfg msg send =
        .error ("Error calling Bedrock model: " ++ e)) ∧
    (send (jsonStringify (preparePromptForModel msg cfg.modelId cfg)) = .ok body →
      invokeBedrockModel cfg msg send =
        .ok { message := extractModelResponse body cfg.modelId,
              implementationStatus := none }) := by
  constructor <;> intro h <;> simp [invokeBedrockModel, h]

/-- C7 witness: a transport that fails with `socket timeout` surfaces as
the uniform wrapped error carrying that message. -/
theorem claim_C7_wrapping_witness :
    invokeBedrockModel cfg0 "m" (fun _ => .error "socket timeout") =
      .error "Error calling Bedrock model: socket timeout" :=
  (claim_C7_wrapping cfg0 "m" (fun _ => .error "socket timeout")
    "socket timeout" .null).1 rfl

/-- C8: for a request that passes validation, when the include-details
flag is disabled the handler's 500 response is identical for any two
underlying error messages (nothing about the error reaches the caller),
and the body is the fixed `{"error":"Internal server error"}` string;
when the flag is enabled the 500 body carries the detailed error
message. -/
theorem claim_C8_disclosure (cfg : AppConfig) (parse : String → Option JsVal)
    (genId : String) (eventBody : Option String) (b : JsVal) (e1 e2 : String)
    (hv : validateRequest parse genId eventBody = .valid b) :
    (cfg.includeErrorDetails = false →
      handler cfg parse genId eventBody (fun _ => .error e1) =
        handler cfg parse genId eventBody (fun _ => .error e2)) ∧
    (cfg.bedrock.useAgent = false →
      (handler cfg parse genId eventBody (fun _ => .error e1)).statusCode = 500) ∧
    (cfg.includeErrorDetails = true → cfg.bedrock.useAgent = false →
      (handler cfg parse genId eventBody (fun _ => .error e1)).body =
        jsonStringify (.obj [("error", .str "Internal server error"),
          ("message", .str ("Error calling Bedrock model: " ++ e1))])) ∧
    (cfg.includeErrorDetails = false → cfg.bedrock.useAgent = false →
      (handler cfg parse genId eventBody (fun _ => .error e1)).body =
        "\x7b\"error\":\"Internal server error\"\x7d") := by
  refine ⟨?_, ?_, ?_, ?_⟩
  · intro hflag
    cases huse : cfg.bedrock.useAgent with
    | true => simp [handler, hv, handleBedrockRequest, huse]
    | false =>
      simp [handler, hv, handleBedrockRequest, huse, invokeBedrockModel, hflag]
  · intro huse
    simp [handler, hv, handleBedrockRequest, huse, invokeBedrockModel,
      formatResponse]
  · intro hflag huse
    simp [handler, hv, handleBedrockRequest, huse, invokeBedrockModel, hflag,
      formatResponse]
  · intro hflag huse
    simp [handler, hv, handleBedrockRequest, huse, invokeBedrockModel, hflag,
      formatResponse]
    rfl

/-- C8 witness: with details disabled, two different backend failures
(`db on fire` vs `quota exceeded`) produce byte-identical responses. -/
theorem claim_C8_disclosure_witness :
    handler appCfg0 (fun _ => some (.obj [("message", .str "hi")])) "g"
        (some "x") (fun _ => .error "db on fire") =
      handler appCfg0 (fun _ => some (.obj [("message", .str "hi")])) "g"
        (some "x") (fun _ => .error "quota exceeded") :=
  (claim_C8_disclosure appCfg0 (fun _ => some (.obj [("message", .str "hi")]))
    "g" (some "x") (.obj [("message", .str "hi"), ("sessionId", .str "g")])
    "db on fire" "quota exceeded" rfl).1 rfl

/-- Updating one key of an object leaves lookups of any other key
unchanged. -/
theorem lookupField_setFieldList (fs : List (String × JsVal)) (k k2 : String)
    (v : JsVal) (h : ¬ k = k2) :
    lookupField (setFieldList fs k v) k2 = lookupField fs k2 := by
  induction fs with
  | nil => simp [setFieldList, lookupField, h]
  | cons hd tl ih =>
    obtain ⟨k3, v3⟩ := hd
    by_cases h3 : k3 = k
    · subst h3
      simp [setFieldList, lookupField, h]
    · simp [setFieldList, lookupField, h3, ih]

/-- C9: `validateRequest` is a total function (its catch block swallows
the exceptions `JSON.parse` or a property read on a `null` body can
raise): an absent or empty body, an unparseable body, and a parsed body
whose `message` field is missing or empty each return a validation
failure with a short message, and otherwise it returns valid with a body
whose `message` field is the original non-empty value. -/
theorem claim_C9_validate (parse : String → Option JsVal) (genId : String) :
    (validateRequest parse genId none = .invalid "Request body is required") ∧
    (validateRequest parse genId (some "") = .invalid "Request body is required") ∧
    (∀ s, ¬ s = "" → parse s = none →
      validateRequest parse genId (some s) = .invalid "Invalid request format") ∧
    (∀ s, ¬ s = "" → parse s = some .null →
      validateRequest parse genId (some s) = .invalid "Invalid request format") ∧
    (∀ s b, ¬ s = "" → parse s = some b → ¬ b = JsVal.null →
      truthyOpt (getField b "message") = false →
      validateRequest parse genId (some s) = .invalid "Message is required") ∧
    (∀ s b, ¬ s = "" → parse s = some b →
      truthyOpt (getField b "message") = true →
      ∃ b2, validateRequest parse genId (some s) = .valid b2 ∧
        getField b2 "message" = getField b "message" ∧
        truthyOpt (getField b2 "message") = true) := by
  refine ⟨rfl, rfl, ?_, ?_, ?_, ?_⟩
  · intro s hs hp
    simp [validateRequest, hs, hp]
  · intro s hs hp
    simp [validateRequest, hs, hp]
  · intro s b hs hp hnull hmsg
    cases b with
    | null => exact absurd rfl hnull
    | bool x => simp [validateRequest, hs, hp, getField]
    | num q => simp [validateRequest, hs, hp, getField]
    | str t => simp [validateRequest, hs, hp, getField]
    | arr xs => simp [validateRequest, hs, hp, getField]
    | obj fs =>
      cases hm : lookupField fs "message" with
      | none => simp [validateRequest, hs, hp, getField, hm]
      | some m =>
        have htm : truthy m = false := by
          simpa [truthyOpt, getField, hm] using hmsg
        simp [validateRequest, hs, hp, getField, hm, htm]
  · intro s b hs hp hmsg
    cases b with
    | null => simp [truthyOpt, getField] at hmsg
    | bool x => simp [truthyOpt, getField] at hmsg
    | num q => simp [truthyOpt, getField] at hmsg
    | str t => simp [truthyOpt, getField] at hmsg
    | arr xs => simp [truthyOpt, getField] at hmsg
    | obj fs =>
      cases hm : lookupField fs "message" with
      | none => simp [truthyOpt, getField, hm] at hmsg
      | some m =>
        have htm : truthy m = true := by
          simpa [truthyOpt, getField, hm] using hmsg
        have hpres : lookupField (setFieldList fs "sessionId" (.str genId))
            "message" = lookupField fs "message" :=
          lookupField_setFieldList fs "sessionId" "message" (.str genId)
            (by decide)
        cases hsid : lookupField fs "sessionId" with
        | none =>
          refine ⟨setField (.obj fs) "sessionId" (.str genId), ?_, ?_, ?_⟩
          · simp [validateRequest, hs, hp, getField, hm, htm, hsid]
          · show lookupField (setFieldList fs "sessionId" (.str genId))
              "message" = lookupField fs "message"
            exact hpres
          · show truthyOpt (lookupField (setFieldList fs "sessionId"
              (.str genId)) "message") = true
            rw [hpres, hm]
            simpa [truthyOpt] using htm
        | some sid =>
          by_cases hts : truthy sid = true
          · refine ⟨.obj fs, ?_, rfl, ?_⟩
            · simp [validateRequest, hs, hp, getField, hm, htm, hsid, hts]
            · simpa [truthyOpt, getField, hm] using htm
          · have hts2 : truthy sid = false := Bool.eq_false_iff.mpr hts
            refine ⟨setField (.obj fs) "sessionId" (.str genId), ?_, ?_, ?_⟩
            · simp [validateRequest, hs, hp, getField, hm, htm, hsid, hts2]
            · show lookupField (setFieldList fs "sessionId" (.str genId))
                "message" = lookupField fs "message"
              exact hpres
            · show truthyOpt (lookupField (setFieldList fs "sessionId"
                (.str genId)) "message") = true
              rw [hpres, hm]
              simpa [truthyOpt] using htm

/-- C9 witness: a missing body, a parse failure, an empty `message` and a
well-formed request each behave as stated. -/
theorem claim_C9_validate_witness :
    validateRequest (fun _ => none) "g" none =
      .invalid "Request body is required" ∧
    validateRequest (fun _ => none) "g" (some "not json") =
      .invalid "Invalid request format" ∧
    validateRequest (fun _ => some (.obj [("message", .str "")])) "g"
        (some "x") = .invalid "Message is required" ∧
    (∃ b2, validateRequest (fun _ => some (.obj [("message", .str "hi")])) "g"
        (some "x") = .valid b2 ∧
      getField b2 "message" =
        getField (.obj [("message", .str "hi")]) "message" ∧
      truthyOpt (getField b2 "message") = true) :=
  ⟨(claim_C9_validate (fun _ => none) "g").1,
   (claim_C9_validate (fun _ => none) "g").2.2.1 "not json" (by decide) rfl,
   (claim_C9_validate (fun _ => some (.obj [("message", .str "")])) "g").2.2.2.2.1
     "x" (.obj [("message", .str "")]) (by decide) rfl
     (fun h => JsVal.noConfusion h) rfl,
   (claim_C9_validate (fun _ => some (.obj [("message", .str "hi")])) "g").2.2.2.2.2
     "x" (.obj [("message", .str "hi")]) (by decide) rfl rfl⟩

/-- C10: for every known family, a response whose expected text-field
chain is present but falsy (in particular the empty string) extracts to
the family placeholder, exactly as if the field were absent. -/
theorem claim_C10_falsy (modelId : String) (body v : JsVal) :
    (jsStartsWith modelId "anthropic.claude" = true →
      getField body "completion" = some v → truthy v = false →
      extractModelResponse body modelId = .str "No response from Claude model") ∧
    (jsStartsWith modelId "ai21" = true →
      optChainField (optChainField
        (optChainIndex (getField body "completions") 0) "data") "text" = some v →
      truthy v = false →
      extractModelResponse body modelId = .str "No response from AI21 model") ∧
    (jsStartsWith modelId "amazon.titan" = true →
      optChainField (optChainIndex (getField body "results") 0) "outputText" =
        some v →
      truthy v = false →
      extractModelResponse body modelId = .str "No response from Titan model") ∧
    (jsStartsWith modelId "cohere" = true →
      optChainField (optChainIndex (getField body "generations") 0) "text" =
        some v →
      truthy v = false →
      extractModelResponse body modelId = .str "No response from Cohere model") := by
  refine ⟨?_, ?_, ?_, ?_⟩
  · intro h hsome htr
    simp [extractModelResponse, h, hsome, jsOr, htr]
  · intro h hsome htr
    have h1 : jsStartsWith modelId "anthropic.claude" = false :=
      jsStartsWith_of_conflict (by decide) h
    simp [extractModelResponse, h, h1, hsome, jsOr, htr]
  · intro h hsome htr
    have h1 : jsStartsWith modelId "anthropic.claude" = false :=
      jsStartsWith_of_conflict (by decide) h
    have h2 : jsStartsWith modelId "ai21" = false :=
      jsStartsWith_of_conflict (by decide) h
    simp [extractModelResponse, h, h1, h2, hsome, jsOr, htr]
  · intro h hsome htr
    have h1 : jsStartsWith modelId "anthropic.claude" = false :=
      jsStartsWith_of_conflict (by decide) h
    have h2 : jsStartsWith modelId "ai21" = false :=
      jsStartsWith_of_conflict (by decide) h
    have h3 : jsStartsWith modelId "amazon.titan" = false :=
      jsStartsWith_of_conflict (by decide) h
    simp [extractModelResponse, h, h1, h2, h3, hsome, jsOr, htr]

/-- C10 witness: a Titan response carrying an empty `outputText` extracts
to the Titan placeholder. -/
theorem claim_C10_falsy_witness :
    extractModelResponse (titanResponse "") "amazon.titan-text-express-v1" =
      .str "No response from Titan model" :=
  (claim_C10_falsy "amazon.titan-text-express-v1" (titanResponse "")
    (.str "")).2.2.1 (by decide) rfl rfl






